import Mathlib

/-!
Shallow embedding of the view-analytics and premium-listing subsystem of the
classifieds backend (source: src/routes.ts, src/schema.ts).

Timestamps are modelled as integer milliseconds since the Unix epoch, as in a
JavaScript `Date`, under a DST-free (UTC) clock: `Date.setDate(getDate() + d)`
then adds exactly `d * 86400000` milliseconds, and SQL `NOW() - INTERVAL` is
plain millisecond subtraction.  The several clock reads a single request
performs (`new Date()` in JS, `NOW()` in SQL) are collapsed into one `now`
parameter.  Rows live in Lean lists in insertion order; a drizzle
`update ... where id = x` maps over the list, `select ... limit 1` is
`List.find?`, and `insert ... returning` appends.
-/

namespace Ruu

/-- Milliseconds since the Unix epoch, as in a JavaScript `Date`. -/
abbrev Time := Int

def msPerHour : Int := 3600000

def msPerDay : Int := 86400000

/-- `expiresAt.setDate(expiresAt.getDate() + d)` on a fresh `new Date()`:
adds `d` calendar days, which under the DST-free model is `d * 86400000` ms. -/
def addDays (t : Time) (d : Nat) : Time := t + d * msPerDay

/-- Postgres `EXTRACT(EPOCH FROM (NOW() - viewStartTime))::integer`: the epoch
difference in (fractional) seconds cast to integer.  The cast rounds to the
nearest integer, half away from zero; for the nonnegative intervals that occur
here that is `⌊(ms + 500) / 1000⌋`. -/
def castSeconds (ms : Int) : Int := (ms + 500).ediv 1000

/-- Postgres `avg(col)::int` over `n` non-null integer values summing to `s`:
the exact numeric mean `s / n` cast to integer, rounding half away from zero. -/
def pgAvgInt (s : Int) (n : Nat) : Int :=
  if 0 ≤ s then (2 * s + n).ediv (2 * n) else -((2 * (-s) + n).ediv (2 * n))

/-- `premium_tiers` row (src/schema.ts). -/
structure PremiumTier where
  id : Nat
  name : String
  price : Int
  durationDays : Nat
deriving DecidableEq, Repr

/-- `listings` row, premium-relevant fields (src/schema.ts).  `userId` and
`premiumTierId` are nullable references. -/
structure Listing where
  id : Nat
  userId : Option Nat
  isPremium : Bool
  premiumTierId : Option Nat
  premiumExpiresAt : Option Time
deriving DecidableEq, Repr

/-- `premium_payments` row (src/schema.ts).  `status` is a text column
(default "pending"); `expiresAt` is nullable. -/
structure PremiumPayment where
  id : Nat
  listingId : Nat
  userId : Nat
  tierId : Nat
  paymentProof : String
  status : String
  amount : Int
  expiresAt : Option Time
deriving DecidableEq, Repr

/-- The jsonb `geo_location` value (country/city/region, each optional). -/
structure GeoLocation where
  country : Option String
  city : Option String
  region : Option String
deriving DecidableEq, Repr

/-- `listing_views` row (src/schema.ts). -/
structure ViewEvent where
  id : Nat
  listingId : Nat
  viewerId : Option Nat
  ipAddress : String
  userAgent : Option String
  geoLocation : Option GeoLocation
  sessionDuration : Option Int
  viewStartTime : Time
  viewEndTime : Option Time
  isReturn : Bool
  createdAt : Time
deriving DecidableEq, Repr

/-- `messages` row, the only field the subsystem reads (nullable reference). -/
structure Message where
  id : Nat
  listingId : Option Nat
deriving DecidableEq, Repr

/-- The datastore state, one list per table plus identity counters. -/
structure DB where
  listings : List Listing
  premiumTiers : List PremiumTier
  premiumPayments : List PremiumPayment
  listingViews : List ViewEvent
  messages : List Message
  nextPaymentId : Nat
  nextViewId : Nat
deriving DecidableEq, Repr

def findPayment (db : DB) (pid : Nat) : Option PremiumPayment :=
  db.premiumPayments.find? (fun p => p.id == pid)

def findTier (db : DB) (tid : Nat) : Option PremiumTier :=
  db.premiumTiers.find? (fun t => t.id == tid)

def findListing (db : DB) (lid : Nat) : Option Listing :=
  db.listings.find? (fun l => l.id == lid)

/-! ### PUT /api/admin/premium-payments/:id (src/routes.ts)

The handler first runs `update premiumPayments set {status} where id` with
`returning` and destructures the first returned row into `payment`.  Then, only
when the request body's `status` is the string "approved", it loads the tier
referenced by `payment.tierId`, computes `expiresAt = now + durationDays`
calendar days, updates the listing's premium fields, and finally writes
`expiresAt` back onto the payment.  It responds with the `payment` value
captured from the FIRST update.  When the id matches no payment, `payment` is
`undefined`: the "approved" branch then throws (`payment.tierId` of undefined),
caught as a 500; any other status reaches `res.json(undefined)` as a 200.
A missing tier row likewise throws (`tier.durationDays` of undefined). -/

/-- Write 1: `update premiumPayments set { status } where id = pid`. -/
def writePaymentStatus (db : DB) (pid : Nat) (st : String) : DB :=
  { db with premiumPayments :=
      db.premiumPayments.map (fun p => if p.id == pid then { p with status := st } else p) }

/-- The first row of the first update's `returning` clause. -/
def returnedPayment (db : DB) (pid : Nat) (st : String) : Option PremiumPayment :=
  (findPayment db pid).map (fun p => { p with status := st })

/-- Write 2: `update listings set { isPremium, premiumTierId, premiumExpiresAt }
where id = lid`. -/
def writeListingPremium (db : DB) (lid : Nat) (tid : Nat) (exp : Time) : DB :=
  { db with listings :=
      db.listings.map (fun l =>
        if l.id == lid then
          { l with isPremium := true, premiumTierId := some tid, premiumExpiresAt := some exp }
        else l) }

/-- Write 3: `update premiumPayments set { expiresAt } where id = pid`. -/
def writePaymentExpires (db : DB) (pid : Nat) (exp : Time) : DB :=
  { db with premiumPayments :=
      db.premiumPayments.map (fun p => if p.id == pid then { p with expiresAt := some exp } else p) }

/-- Outcome of the PUT handler: 403 (non-admin), 500 (caught exception, with
the datastore as it stood at the throw point), or 200 with the JSON body. -/
inductive SetStatusResult
  | forbidden
  | serverError (db : DB)
  | ok (body : Option PremiumPayment) (db : DB)
deriving DecidableEq, Repr

def SetStatusResult.statusCode : SetStatusResult → Nat
  | .forbidden => 403
  | .serverError _ => 500
  | .ok _ _ => 200

def SetStatusResult.db : SetStatusResult → Option DB
  | .forbidden => none
  | .serverError d => some d
  | .ok _ d => some d

/-- The full handler for `PUT /api/admin/premium-payments/:id`. -/
def setStatus (db : DB) (isAdmin : Bool) (pid : Nat) (st : String) (now : Time) :
    SetStatusResult :=
  if !isAdmin then .forbidden
  else
    let s1 := writePaymentStatus db pid st
    match returnedPayment db pid st with
    | none =>
        if st == "approved" then .serverError s1 else .ok none s1
    | some payment =>
        if st == "approved" then
          match findTier db payment.tierId with
          | none => .serverError s1
          | some tier =>
              let exp := addDays now tier.durationDays
              let s2 := writeListingPremium s1 payment.listingId payment.tierId exp
              let s3 := writePaymentExpires s2 payment.id exp
              .ok (some payment) s3
        else .ok (some payment) s1

/-- Datastore after the first `k` of the approval path's three writes, the
handler run with an admin caller and `status = "approved"`; models a failure
between write `k` and write `k+1`. -/
def approvalWritesUpTo (db : DB) (pid : Nat) (now : Time) (k : Nat) : DB :=
  if k = 0 then db
  else
    let s1 := writePaymentStatus db pid "approved"
    match returnedPayment db pid "approved" with
    | none => s1
    | some payment =>
        match findTier db payment.tierId with
        | none => s1
        | some tier =>
            let exp := addDays now tier.durationDays
            if k = 1 then s1
            else
              let s2 := writeListingPremium s1 payment.listingId payment.tierId exp
              if k = 2 then s2 else writePaymentExpires s2 payment.id exp

/-! ### POST /api/listings/:id/view (src/routes.ts)

The handler first queries for a "previous view" on `(listingId, ip)` with
`createdAt > NOW() - INTERVAL '7 days'` and `createdAt < NOW() - INTERVAL
'24 hours'` (limit 1), then for a "recent view" with `createdAt > NOW() -
INTERVAL '1 hour'` (limit 1).  If a recent view exists it updates that row's
`viewEndTime` to `new Date()` and recomputes `sessionDuration` from the row's
own `viewStartTime` via the `::integer` cast, inserting nothing.  Otherwise it
inserts a fresh row with `viewStartTime = new Date()`, `isReturn` true exactly
when the previous-view query matched, and the column defaults
(`createdAt = NOW()`, `sessionDuration`/`viewEndTime` null). -/

/-- The return-visitor query: first `(listingId, ip)` event with `createdAt`
strictly between `now - 7 days` and `now - 24 hours`. -/
def findPreviousView (db : DB) (lid : Nat) (ip : String) (now : Time) : Option ViewEvent :=
  db.listingViews.find? (fun e =>
    e.listingId == lid && e.ipAddress == ip &&
      decide (now - 7 * msPerDay < e.createdAt) && decide (e.createdAt < now - msPerDay))

/-- The dedup query: first `(listingId, ip)` event with `createdAt` within the
last hour of `now`. -/
def findRecentView (db : DB) (lid : Nat) (ip : String) (now : Time) : Option ViewEvent :=
  db.listingViews.find? (fun e =>
    e.listingId == lid && e.ipAddress == ip && decide (now - msPerHour < e.createdAt))

/-- The in-place update of a recent view: `viewEndTime = new Date()`,
`sessionDuration = EXTRACT(EPOCH FROM (NOW() - viewStartTime))::integer`. -/
def updateViewDuration (db : DB) (eid : Nat) (now : Time) : DB :=
  { db with listingViews :=
      db.listingViews.map (fun e =>
        if e.id == eid then
          { e with viewEndTime := some now,
                   sessionDuration := some (castSeconds (now - e.viewStartTime)) }
        else e) }

/-- The freshly inserted row of the insert branch. -/
def newViewEvent (db : DB) (lid : Nat) (viewerId : Option Nat) (ip : String)
    (ua : Option String) (geo : Option GeoLocation) (isReturn : Bool) (now : Time) :
    ViewEvent :=
  { id := db.nextViewId, listingId := lid, viewerId := viewerId, ipAddress := ip,
    userAgent := ua, geoLocation := geo, sessionDuration := none,
    viewStartTime := now, viewEndTime := none, isReturn := isReturn, createdAt := now }

/-- The full handler: returns the new datastore and `wasUpdated` (true on the
update branch, false on the insert branch). -/
def recordView (db : DB) (lid : Nat) (viewerId : Option Nat) (ip : String)
    (ua : Option String) (geo : Option GeoLocation) (now : Time) : DB × Bool :=
  let previousView := findPreviousView db lid ip now
  match findRecentView db lid ip now with
  | some recent => (updateViewDuration db recent.id now, true)
  | none =>
      ({ db with
          listingViews :=
            db.listingViews ++ [newViewEvent db lid viewerId ip ua geo previousView.isSome now],
          nextViewId := db.nextViewId + 1 }, false)

/-- A whole sequence of view calls for one `(listingId, ip)` pair, applied in
order (each call's datastore is the previous call's result). -/
def recordViews (db : DB) (lid : Nat) (ip : String) (geo : Option GeoLocation)
    (times : List Time) : DB :=
  times.foldl (fun d t => (recordView d lid none ip none geo t).1) db

/-! ### GET /api/listings/:id/analytics (src/routes.ts)

The handler looks the listing up; if it is absent or its `userId` differs from
the requester it responds 403.  Otherwise it aggregates the listing's view
events: `count(*)`, `count(distinct ipAddress)`, `count(distinct case when
isReturn then ipAddress end)`, `avg(sessionDuration)::int` (SQL `avg` ignores
nulls and yields null over zero non-null values), hour-of-day buckets over the
last 24 hours, calendar-day buckets over the last 7 days, a per-country
grouping that drops the null country, and the listing's message count.  Hour
and day come from the timestamp under the UTC model; the geo grouping carries
no ORDER BY in SQL, so the model fixes ascending country order. -/

/-- Insert into a Bool-le-sorted list (used to realise SQL ordering). -/
def insSorted {α : Type} (le : α → α → Bool) (x : α) : List α → List α
  | [] => [x]
  | y :: ys => if le x y then x :: y :: ys else y :: insSorted le x ys

def sortByLe {α : Type} (le : α → α → Bool) (l : List α) : List α :=
  l.foldr (insSorted le) []

/-- Hour of day (0–23) of a timestamp, UTC: `to_char(ts, 'HH24:00')`. -/
def hourOfDay (t : Time) : Nat := (t.emod msPerDay).toNat / 3600000

/-- Calendar day index of a timestamp, UTC: `date_trunc('day', ts)`. -/
def dayIndex (t : Time) : Int := t.ediv msPerDay

structure ViewsSummary where
  total : Nat
  unique : Nat
  returningVisitors : Nat
  avgDuration : Option Int
deriving DecidableEq, Repr

structure AnalyticsReport where
  views : ViewsSummary
  hourlyViews : List (Nat × Nat)
  dailyViews : List (Int × Nat)
  geoDistribution : List (String × Nat)
  messageCount : Nat
deriving DecidableEq, Repr

/-- All view events of one listing, in table order. -/
def viewsOf (db : DB) (lid : Nat) : List ViewEvent :=
  db.listingViews.filter (fun e => e.listingId == lid)

/-- `avg(sessionDuration)::int`: null values excluded by SQL `avg`; null when
no non-null value exists. -/
def avgDurationOf (evs : List ViewEvent) : Option Int :=
  let ds := evs.filterMap (fun e => e.sessionDuration)
  if ds.isEmpty then none else some (pgAvgInt ds.sum ds.length)

/-- Hourly buckets: events of the last 24 hours grouped by hour-of-day label,
ascending by label, zero-count buckets omitted. -/
def hourlyViewsOf (evs : List ViewEvent) (now : Time) : List (Nat × Nat) :=
  let recent := evs.filter (fun e => decide (now - msPerDay < e.createdAt))
  (List.range 24).filterMap (fun h =>
    let c := (recent.filter (fun e => hourOfDay e.createdAt == h)).length
    if c == 0 then none else some (h, c))

/-- Daily buckets: events of the last 7 days grouped by calendar day,
ascending, zero-count buckets omitted. -/
def dailyViewsOf (evs : List ViewEvent) (now : Time) : List (Int × Nat) :=
  let recent := evs.filter (fun e => decide (now - 7 * msPerDay < e.createdAt))
  let keys := recent.map (fun e => dayIndex e.createdAt)
  (sortByLe (fun a b => a ≤ b) keys.dedup).map (fun k => (k, keys.count k))

/-- Per-country counts, the null country dropped by the HAVING clause. -/
def geoDistributionOf (evs : List ViewEvent) : List (String × Nat) :=
  let cs := evs.filterMap (fun e => e.geoLocation.bind (fun g => g.country))
  (sortByLe (fun a b : String => a ≤ b) cs.dedup).map (fun c => (c, cs.count c))

def analyticsReport (db : DB) (lid : Nat) (now : Time) : AnalyticsReport :=
  let evs := viewsOf db lid
  { views :=
      { total := evs.length,
        unique := (evs.map (fun e => e.ipAddress)).dedup.length,
        returningVisitors :=
          ((evs.filter (fun e => e.isReturn)).map (fun e => e.ipAddress)).dedup.length,
        avgDuration := avgDurationOf evs },
    hourlyViews := hourlyViewsOf evs now,
    dailyViews := dailyViewsOf evs now,
    geoDistribution := geoDistributionOf evs,
    messageCount := (db.messages.filter (fun m => m.listingId == some lid)).length }

/-- Outcome of the analytics handler: 403 when the listing is absent or owned
by someone else, otherwise 200 with the report.  No branch produces a 404. -/
inductive AnalyticsResult
  | forbidden
  | ok (report : AnalyticsReport)
deriving DecidableEq, Repr

def AnalyticsResult.statusCode : AnalyticsResult → Nat
  | .forbidden => 403
  | .ok _ => 200

def getAnalytics (db : DB) (lid : Nat) (requesterId : Nat) (now : Time) :
    AnalyticsResult :=
  match findListing db lid with
  | none => .forbidden
  | some listing =>
      if listing.userId == some requesterId then .ok (analyticsReport db lid now)
      else .forbidden

/-! ### POST /api/premium-payments and operation sequences (src/routes.ts)

Submission inserts a payment with the tier's current price copied into
`amount` and `status = "pending"`; `expiresAt` is not supplied, so the column
default (null) applies.  A missing tier throws (`[0].price` of undefined),
caught as a 500 with nothing inserted. -/

def submitPayment (db : DB) (lid uid tid : Nat) (proofUrl : String) : DB :=
  match findTier db tid with
  | none => db
  | some tier =>
      { db with
          premiumPayments :=
            db.premiumPayments ++
              [{ id := db.nextPaymentId, listingId := lid, userId := uid, tierId := tid,
                 paymentProof := proofUrl, status := "pending", amount := tier.price,
                 expiresAt := none }],
          nextPaymentId := db.nextPaymentId + 1 }

/-- One payment-lifecycle operation, as issued by the HTTP endpoints. -/
inductive Op
  | submit (lid uid tid : Nat) (proofUrl : String)
  | setStatus (pid : Nat) (st : String) (now : Time)
deriving DecidableEq, Repr

/-- Final-state semantics of an admin-issued operation (the handler run to
completion; a 500/403 response leaves the datastore at the state the handler
reached, which for `submit` and for a failed lookup is the initial state). -/
def applyOp (db : DB) : Op → DB
  | .submit lid uid tid proofUrl => submitPayment db lid uid tid proofUrl
  | .setStatus pid st now =>
      match (setStatus db true pid st now).db with
      | some d => d
      | none => db

def applyOps (db : DB) (ops : List Op) : DB := ops.foldl applyOp db

/-! ### Concrete fixtures (used by witnesses and counterexamples) -/

def tier1 : PremiumTier := { id := 1, name := "gold", price := 500, durationDays := 30 }

def listing1 : Listing :=
  { id := 1, userId := some 10, isPremium := false, premiumTierId := none,
    premiumExpiresAt := none }

def payment1 : PremiumPayment :=
  { id := 1, listingId := 1, userId := 10, tierId := 1, paymentProof := "proof.png",
    status := "pending", amount := 500, expiresAt := none }

def db1 : DB :=
  { listings := [listing1], premiumTiers := [tier1], premiumPayments := [payment1],
    listingViews := [], messages := [], nextPaymentId := 2, nextViewId := 1 }

/-- Like `db1` but with no payment rows at all. -/
def db5 : DB :=
  { listings := [listing1], premiumTiers := [tier1], premiumPayments := [],
    listingViews := [], messages := [], nextPaymentId := 1, nextViewId := 1 }

/-! ### List helper lemmas -/

/-- `find?` commutes with mapping a function that does not change the
predicate's verdict (drizzle updates preserve every row's `id`). -/
theorem find?_map_stable {α : Type} (f : α → α) (q : α → Bool)
    (hf : ∀ a, q (f a) = q a) (l : List α) :
    (l.map f).find? q = (l.find? q).map f := by
  induction l with
  | nil => rfl
  | cons a l ih =>
      by_cases h : q a = true
      · rw [List.map_cons, List.find?_cons_of_pos _ (by rw [hf]; exact h),
          List.find?_cons_of_pos _ h, Option.map_some']
      · have h' : q a = false := by simpa using h
        rw [List.map_cons, List.find?_cons_of_neg _ (by rw [hf, h']; simp),
          List.find?_cons_of_neg _ (by rw [h']; simp), ih]

theorem findPayment_id {db : DB} {pid : Nat} {p : PremiumPayment}
    (h : findPayment db pid = some p) : p.id = pid := by
  have := List.find?_some h
  simpa using this

theorem findListing_id {db : DB} {lid : Nat} {l : Listing}
    (h : findListing db lid = some l) : l.id = lid := by
  have := List.find?_some h
  simpa using this

/-! ### The approval path, step by step -/

/-- Running the handler with an existing payment, an existing tier and
`status = "approved"` performs the three writes in order and responds with the
row captured from the first write's `returning`. -/
theorem setStatus_approved_eq (db : DB) (pid : Nat) (now : Time)
    (p : PremiumPayment) (tier : PremiumTier)
    (hp : findPayment db pid = some p) (ht : findTier db p.tierId = some tier) :
    setStatus db true pid "approved" now =
      .ok (some { p with status := "approved" })
        (writePaymentExpires
          (writeListingPremium (writePaymentStatus db pid "approved")
            p.listingId p.tierId (addDays now tier.durationDays))
          p.id (addDays now tier.durationDays)) := by
  unfold setStatus returnedPayment
  rw [hp]
  simp only [Option.map_some', Bool.not_true, Bool.false_eq_true, if_false]
  have htier : findTier db (PremiumPayment.tierId { p with status := "approved" }) =
      some tier := ht
  rw [htier]
  simp

/-- The payment row as the approval path leaves it. -/
theorem approved_final_payment (db : DB) (pid : Nat)
    (p : PremiumPayment) (exp : Time)
    (hp : findPayment db pid = some p) :
    findPayment
      (writePaymentExpires
        (writeListingPremium (writePaymentStatus db pid "approved")
          p.listingId p.tierId exp) p.id exp) pid =
      some { p with status := "approved", expiresAt := some exp } := by
  have hid : p.id = pid := findPayment_id hp
  unfold findPayment writePaymentExpires writeListingPremium writePaymentStatus
  simp only [List.map_map]
  rw [find?_map_stable _ _ (fun a => by by_cases h : a.id == pid <;> simp [h, Function.comp, hid])]
  unfold findPayment at hp
  rw [hp]
  simp [hid, Function.comp]

/-- The listing row as the approval path leaves it. -/
theorem approved_final_listing (db : DB) (pid : Nat)
    (p : PremiumPayment) (l : Listing) (exp : Time)
    (hl : findListing db p.listingId = some l) :
    findListing
      (writePaymentExpires
        (writeListingPremium (writePaymentStatus db pid "approved")
          p.listingId p.tierId exp) p.id exp) p.listingId =
      some { l with isPremium := true, premiumTierId := some p.tierId,
                    premiumExpiresAt := some exp } := by
  have hid : l.id = p.listingId := findListing_id hl
  unfold findListing writePaymentExpires writeListingPremium writePaymentStatus
  rw [find?_map_stable _ _ (fun a => by by_cases h : a.id == p.listingId <;> simp [h])]
  unfold findListing at hl
  rw [hl]
  simp [hid]

/-! ### Claim theorems: the premium payment state machine -/

/-- C1: for every payment whose status an admin sets to approved, the
operation sets the referenced listing's `isPremium` to true, its
`premiumTierId` to the payment's `tierId`, and its `premiumExpiresAt` to the
approval time plus the tier's `durationDays` calendar days, and sets the
payment's `status` to approved and the payment's `expiresAt` to that same
timestamp. -/
theorem approve_sets_premium (db : DB) (pid : Nat) (now : Time)
    (p : PremiumPayment) (tier : PremiumTier) (l : Listing)
    (hp : findPayment db pid = some p)
    (ht : findTier db p.tierId = some tier)
    (hl : findListing db p.listingId = some l) :
    ∃ db', (setStatus db true pid "approved" now).db = some db' ∧
      findListing db' p.listingId =
        some { l with isPremium := true, premiumTierId := some p.tierId,
                      premiumExpiresAt := some (addDays now tier.durationDays) } ∧
      findPayment db' pid =
        some { p with status := "approved",
                      expiresAt := some (addDays now tier.durationDays) } := by
  refine ⟨_, by rw [setStatus_approved_eq db pid now p tier hp ht]; rfl, ?_, ?_⟩
  · exact approved_final_listing db pid p l (addDays now tier.durationDays) hl
  · exact approved_final_payment db pid p (addDays now tier.durationDays) hp

/-- C1 witness: the theorem applied to the concrete fixture `db1`. -/
theorem approve_sets_premium_witness :
    ∃ db', (setStatus db1 true 1 "approved" 1000).db = some db' ∧
      findListing db' payment1.listingId =
        some { listing1 with isPremium := true, premiumTierId := some payment1.tierId,
                             premiumExpiresAt := some (addDays 1000 tier1.durationDays) } ∧
      findPayment db' 1 =
        some { payment1 with status := "approved",
                             expiresAt := some (addDays 1000 tier1.durationDays) } :=
  approve_sets_premium db1 1 1000 payment1 tier1 listing1 (by decide) (by decide) (by decide)

/-- C9: for every payment whose status an admin sets to rejected, only the
payment's status field changes; every listing row, every view row, and every
other field of every payment row (in particular `expiresAt`) is unchanged. -/
theorem reject_touches_only_status (db : DB) (pid : Nat) (now : Time)
    (p : PremiumPayment) (hp : findPayment db pid = some p) :
    ∃ db', setStatus db true pid "rejected" now =
        .ok (some { p with status := "rejected" }) db' ∧
      db'.listings = db.listings ∧
      db'.listingViews = db.listingViews ∧
      db'.messages = db.messages ∧
      db'.premiumPayments =
        db.premiumPayments.map
          (fun q => if q.id == pid then { q with status := "rejected" } else q) := by
  refine ⟨writePaymentStatus db pid "rejected", ?_, rfl, rfl, rfl, rfl⟩
  unfold setStatus returnedPayment
  rw [hp]
  simp

/-- C9 witness: the theorem applied to the concrete fixture `db1`. -/
theorem reject_touches_only_status_witness :
    ∃ db', setStatus db1 true 1 "rejected" 1000 =
        .ok (some { payment1 with status := "rejected" }) db' ∧
      db'.listings = db1.listings ∧
      db'.listingViews = db1.listingViews ∧
      db'.messages = db1.messages ∧
      db'.premiumPayments =
        db1.premiumPayments.map
          (fun q => if q.id == 1 then { q with status := "rejected" } else q) :=
  reject_touches_only_status db1 1 1000 payment1 (by decide)

/-- C10: for every successful approval, the JSON response body is the payment
row as it stood after the status write and before the `expiresAt` write: for a
payment whose `expiresAt` was null it carries status "approved" and a null
`expiresAt`, while the persisted row carries the freshly computed expiry, so
the response does not reflect the stored expiry timestamp. -/
theorem approve_response_stale_expiry (db : DB) (pid : Nat) (now : Time)
    (p : PremiumPayment) (tier : PremiumTier)
    (hp : findPayment db pid = some p)
    (hnone : p.expiresAt = none)
    (ht : findTier db p.tierId = some tier) :
    ∃ db', setStatus db true pid "approved" now =
        .ok (some { p with status := "approved" }) db' ∧
      (PremiumPayment.status { p with status := "approved" }) = "approved" ∧
      (PremiumPayment.expiresAt { p with status := "approved" }) = none ∧
      findPayment db' pid =
        some { p with status := "approved",
                      expiresAt := some (addDays now tier.durationDays) } ∧
      (some (addDays now tier.durationDays) : Option Time) ≠ none := by
  refine ⟨_, setStatus_approved_eq db pid now p tier hp ht, rfl, hnone, ?_, by simp⟩
  exact approved_final_payment db pid p (addDays now tier.durationDays) hp

/-- C10 witness: the theorem applied to the concrete fixture `db1`. -/
theorem approve_response_stale_expiry_witness :
    ∃ db', setStatus db1 true 1 "approved" 1000 =
        .ok (some { payment1 with status := "approved" }) db' ∧
      (PremiumPayment.status { payment1 with status := "approved" }) = "approved" ∧
      (PremiumPayment.expiresAt { payment1 with status := "approved" }) = none ∧
      findPayment db' 1 =
        some { payment1 with status := "approved",
                             expiresAt := some (addDays 1000 tier1.durationDays) } ∧
      (some (addDays 1000 tier1.durationDays) : Option Time) ≠ none :=
  approve_response_stale_expiry db1 1 1000 payment1 tier1 (by decide) (by decide) (by decide)

/-- Consistency of the failure model with the handler: running all three
writes of the approval path is exactly what the handler's non-403 outcomes
persist. -/
theorem approvalWritesUpTo_three (db : DB) (pid : Nat) (now : Time) :
    (setStatus db true pid "approved" now).db = some (approvalWritesUpTo db pid now 3) := by
  unfold setStatus approvalWritesUpTo returnedPayment
  cases hp : findPayment db pid with
  | none => simp [SetStatusResult.db]
  | some p =>
      simp only [Option.map_some']
      cases ht : findTier db (PremiumPayment.tierId { p with status := "approved" }) <;>
        simp [ht, SetStatusResult.db]

/-- C2: the three writes of the approval path are separate statements with no
transaction: stopping after the first write leaves the payment approved with a
null `expiresAt` while the listing is still non-premium — a persisted partial
state, on the concrete fixture `db1`. -/
theorem approval_not_atomic :
    findPayment (approvalWritesUpTo db1 1 1000 1) 1 =
      some { payment1 with status := "approved" } ∧
    (PremiumPayment.expiresAt { payment1 with status := "approved" }) = none ∧
    findListing (approvalWritesUpTo db1 1 1000 1) 1 = some listing1 ∧
    listing1.isPremium = false ∧ listing1.premiumExpiresAt = none ∧
    findListing (approvalWritesUpTo db1 1 1000 3) 1 ≠ some listing1 := by
  decide

/-- C5: a setStatus call whose payment id matches no row modifies nothing,
but does not fail with a 404: with status "approved" it responds 500 (the
thrown property access on the undefined row), with status "rejected" it
responds 200 with an empty body.  Concrete fixture `db5` has no payment 7. -/
theorem missing_payment_no_404 :
    findPayment db5 7 = none ∧
    setStatus db5 true 7 "approved" 0 = .serverError db5 ∧
    setStatus db5 true 7 "rejected" 0 = .ok none db5 ∧
    (setStatus db5 true 7 "approved" 0).statusCode = 500 ∧
    (setStatus db5 true 7 "rejected" 0).statusCode = 200 := by
  decide

/-- The operation sequence of the C8 counterexample: submit a payment for
listing 1 / tier 1, approve it, then reject it. -/
def ops8 : List Op :=
  [.submit 1 10 1 "proof.png", .setStatus 1 "approved" 1000, .setStatus 1 "rejected" 2000]

/-- C8: the `expiresAt`-iff-approved invariant fails on a reachable state:
after submit, approve, reject (the handler has no terminal-state guard), the
payment's status is "rejected" while `expiresAt` is still set. -/
theorem expiry_invariant_violated :
    ∃ p ∈ (applyOps db5 ops8).premiumPayments,
      p.expiresAt.isSome = true ∧ p.status ≠ "approved" := by
  decide

/-! ### Claim theorems: view deduplication -/

theorem find?_append_none {α : Type} (p : α → Bool) (l₁ l₂ : List α)
    (h : ∀ x ∈ l₁, p x = false) : (l₁ ++ l₂).find? p = l₂.find? p := by
  induction l₁ with
  | nil => rfl
  | cons a l ih =>
      rw [List.cons_append, List.find?_cons_of_neg _ (by simp [h a (by simp)]),
        ih (fun x hx => h x (by simp [hx]))]

theorem map_eq_self_of {α : Type} (f : α → α) (l : List α)
    (h : ∀ x ∈ l, f x = x) : l.map f = l := by
  induction l with
  | nil => rfl
  | cons a l ih =>
      rw [List.map_cons, h a (by simp), ih (fun x hx => h x (by simp [hx]))]

/-- The cumulative effect on one row of a run of update-branch calls at the
given times. -/
def runUpdates (e : ViewEvent) : List Time → ViewEvent
  | [] => e
  | t :: ts =>
      runUpdates
        { e with viewEndTime := some t,
                 sessionDuration := some (castSeconds (t - e.viewStartTime)) } ts

theorem runUpdates_getLast (ts : List Time) (e : ViewEvent) (tl : Time)
    (h : ts.getLast? = some tl) :
    (runUpdates e ts).viewEndTime = some tl ∧
    (runUpdates e ts).sessionDuration = some (castSeconds (tl - e.viewStartTime)) := by
  induction ts generalizing e with
  | nil => cases h
  | cons t ts ih =>
      cases ts with
      | nil =>
          have : t = tl := by simpa using h
          subst this
          exact ⟨rfl, rfl⟩
      | cons t' ts' =>
          have h' : (t' :: ts').getLast? = some tl := by
            simpa [List.getLast?_cons_cons] using h
          exact ih _ h'

theorem runUpdates_start (ts : List Time) (e : ViewEvent) :
    (runUpdates e ts).viewStartTime = e.viewStartTime ∧
    (runUpdates e ts).createdAt = e.createdAt := by
  induction ts generalizing e with
  | nil => exact ⟨rfl, rfl⟩
  | cons t ts ih => exact ih _

/-- A call that finds a recent view takes the update branch: it touches only
the found row and inserts nothing. -/
theorem recordView_update (db : DB) (lid : Nat) (vid : Option Nat) (ip : String)
    (ua : Option String) (geo : Option GeoLocation) (now : Time) (r : ViewEvent)
    (hfind : findRecentView db lid ip now = some r) :
    recordView db lid vid ip ua geo now = (updateViewDuration db r.id now, true) := by
  unfold recordView
  rw [hfind]

/-- Every call of a run whose times stay within one hour of the row's creation
finds that row by the dedup query and updates it in place: no row is added or
removed, and the row accumulates `runUpdates`. -/
theorem recordViews_update_run (ts : List Time) (d : DB) (old : List ViewEvent)
    (lid : Nat) (ip : String) (geo : Option GeoLocation) (t0 : Time) (e : ViewEvent)
    (hviews : d.listingViews = old ++ [e])
    (hlid : e.listingId = lid) (hip : e.ipAddress = ip)
    (hcre : e.createdAt = t0) (hstart : e.viewStartTime = t0)
    (hids : ∀ x ∈ old, x.id ≠ e.id)
    (hold : ∀ x ∈ old, x.listingId = lid → x.ipAddress = ip →
      x.createdAt ≤ t0 - msPerHour)
    (hts : ∀ t ∈ ts, t0 ≤ t ∧ t < t0 + msPerHour) :
    recordViews d lid ip geo ts = { d with listingViews := old ++ [runUpdates e ts] } := by
  induction ts generalizing d e with
  | nil =>
      show d = _
      rw [runUpdates, ← hviews]
  | cons t ts ih =>
      obtain ⟨ht0, htlt⟩ := hts t (by simp)
      have hpe : (e.listingId == lid && e.ipAddress == ip &&
          decide (t - msPerHour < e.createdAt)) = true := by
        have hlt : t - msPerHour < e.createdAt := by
          rw [hcre]; linarith
        simp [hlid, hip, hlt]
      have hfail : ∀ x ∈ old,
          (x.listingId == lid && x.ipAddress == ip &&
            decide (t - msPerHour < x.createdAt)) = false := by
        intro x hx
        by_cases hxl : x.listingId = lid
        · by_cases hxip : x.ipAddress = ip
          · have hc := hold x hx hxl hxip
            have hnlt : ¬ (t - msPerHour < x.createdAt) := by
              simp only [not_lt]; linarith
            simp [hxl, hxip, hnlt]
          · simp [hxip]
        · simp [hxl]
      have hfind : findRecentView d lid ip t = some e := by
        unfold findRecentView
        rw [hviews, find?_append_none _ _ _ hfail, List.find?_cons_of_pos]
        exact hpe
      show recordViews (recordView d lid none ip none geo t).1 lid ip geo ts = _
      rw [recordView_update d lid none ip none geo t e hfind]
      set e' : ViewEvent :=
        { e with viewEndTime := some t,
                 sessionDuration := some (castSeconds (t - e.viewStartTime)) } with he'
      have hstep : (updateViewDuration d e.id t, true).1 =
          { d with listingViews := old ++ [e'] } := by
        show updateViewDuration d e.id t = _
        unfold updateViewDuration
        rw [hviews, List.map_append,
          map_eq_self_of _ old (fun x hx => by
            have hne : (x.id == e.id) = false := by simpa using hids x hx
            simp [hne]),
          List.map_cons, List.map_nil]
        simp [he']
      rw [hstep]
      exact ih _ e' rfl hlid hip hcre hstart hids
        (fun t' ht' => hts t' (by simp [ht']))

/-- The insert branch: when no `(listingId, ip)` row lies within the last
hour, a fresh row is appended with `viewStartTime = createdAt = now` and
`isReturn` from the 24h–7d query. -/
theorem recordView_insert (db : DB) (lid : Nat) (vid : Option Nat) (ip : String)
    (ua : Option String) (geo : Option GeoLocation) (t0 : Time)
    (hold : ∀ x ∈ db.listingViews, x.listingId = lid → x.ipAddress = ip →
      x.createdAt ≤ t0 - msPerHour) :
    recordView db lid vid ip ua geo t0 =
      ({ db with
          listingViews := db.listingViews ++
            [newViewEvent db lid vid ip ua geo (findPreviousView db lid ip t0).isSome t0],
          nextViewId := db.nextViewId + 1 }, false) := by
  have hnone : findRecentView db lid ip t0 = none := by
    unfold findRecentView
    rw [List.find?_eq_none]
    intro x hx
    by_cases hxl : x.listingId = lid
    · by_cases hxip : x.ipAddress = ip
      · have hc := hold x hx hxl hxip
        have hnlt : ¬ (t0 - msPerHour < x.createdAt) := not_lt.mpr hc
        simp [hxl, hxip, hnlt]
      · simp [hxip]
    · simp [hxl]
  unfold recordView
  rw [hnone]

/-- A view event of listing 1 from IP "1.2.3.4" recorded at the epoch. -/
def viewA : ViewEvent :=
  { id := 1, listingId := 1, viewerId := none, ipAddress := "1.2.3.4", userAgent := none,
    geoLocation := none, sessionDuration := none, viewStartTime := 0, viewEndTime := none,
    isReturn := false, createdAt := 0 }

def dbv : DB :=
  { listings := [listing1], premiumTiers := [], premiumPayments := [],
    listingViews := [viewA], messages := [], nextPaymentId := 1, nextViewId := 2 }

/-- C3 counterexample: a second view of the same listing from the same IP
1600 ms after the first is deduplicated into the existing row (on `dbv`), but
the recorded `sessionDuration` is 2 — the `::integer` cast rounds 1.6 s to the
nearest second — while `now - viewStartTime` truncated to integer seconds
is 1. -/
theorem session_duration_not_truncated :
    findRecentView dbv 1 "1.2.3.4" 1600 = some viewA ∧
    (recordView dbv 1 none "1.2.3.4" none none 1600).1.listingViews =
      [{ viewA with viewEndTime := some 1600, sessionDuration := some 2 }] ∧
    (recordView dbv 1 none "1.2.3.4" none none 1600).2 = true ∧
    (1600 - viewA.viewStartTime).ediv 1000 = 1 ∧ ¬ ((2 : Int) = 1) := by
  decide

/-- C3 (amended: the `::integer` cast rounds to the nearest second rather than
truncating): a call finding a `(listingId, ip)` event within the last hour
updates that event in place (`viewEndTime := now`, `sessionDuration :=
castSeconds (now - viewStartTime)`) and inserts nothing; hence over any
sequence of calls within one hour of the first, exactly one row is ever
created, and it reflects the latest call. -/
theorem dedup_one_row_per_span (db : DB) (lid : Nat) (ip : String)
    (geo : Option GeoLocation) (t0 : Time) (rest : List Time)
    (hfresh : ∀ x ∈ db.listingViews, x.id < db.nextViewId)
    (hold : ∀ x ∈ db.listingViews, x.listingId = lid → x.ipAddress = ip →
      x.createdAt ≤ t0 - msPerHour)
    (hrest : ∀ t ∈ rest, t0 ≤ t ∧ t < t0 + msPerHour) :
    (∀ (d : DB) (vid : Option Nat) (ua : Option String) (t : Time) (r : ViewEvent),
      findRecentView d lid ip t = some r →
      recordView d lid vid ip ua geo t = (updateViewDuration d r.id t, true)) ∧
    ∃ v, (recordViews db lid ip geo (t0 :: rest)).listingViews = db.listingViews ++ [v] ∧
      v.viewStartTime = t0 ∧ v.createdAt = t0 ∧
      (rest = [] → v.viewEndTime = none ∧ v.sessionDuration = none) ∧
      ∀ tl, rest.getLast? = some tl →
        v.viewEndTime = some tl ∧ v.sessionDuration = some (castSeconds (tl - t0)) := by
  refine ⟨fun d vid ua t r hf => recordView_update d lid vid ip ua geo t r hf, ?_⟩
  have hstep := recordView_insert db lid none ip none geo t0 hold
  have hrun := recordViews_update_run rest
    ({ db with
        listingViews := db.listingViews ++
          [newViewEvent db lid none ip none geo (findPreviousView db lid ip t0).isSome t0],
        nextViewId := db.nextViewId + 1 })
    db.listingViews lid ip geo t0
    (newViewEvent db lid none ip none geo (findPreviousView db lid ip t0).isSome t0)
    rfl rfl rfl rfl rfl
    (fun x hx => Nat.ne_of_lt (hfresh x hx))
    hold hrest
  refine ⟨runUpdates
      (newViewEvent db lid none ip none geo (findPreviousView db lid ip t0).isSome t0) rest,
    ?_, ?_, ?_, ?_, ?_⟩
  · show (recordViews (recordView db lid none ip none geo t0).1 lid ip geo rest).listingViews = _
    rw [hstep, hrun]
  · exact (runUpdates_start rest _).1
  · exact (runUpdates_start rest _).2
  · rintro rfl
    exact ⟨rfl, rfl⟩
  · intro tl htl
    exact runUpdates_getLast rest
      (newViewEvent db lid none ip none geo (findPreviousView db lid ip t0).isSome t0) tl htl

/-- C3 witness: the theorem applied to an empty view table, a first view at
time 0 and a second view 1600 ms later. -/
theorem dedup_one_row_per_span_witness :
    (∀ (d : DB) (vid : Option Nat) (ua : Option String) (t : Time) (r : ViewEvent),
      findRecentView d 1 "1.2.3.4" t = some r →
      recordView d 1 vid "1.2.3.4" ua none t = (updateViewDuration d r.id t, true)) ∧
    ∃ v, (recordViews db5 1 "1.2.3.4" none (0 :: [1600])).listingViews =
        db5.listingViews ++ [v] ∧
      v.viewStartTime = 0 ∧ v.createdAt = 0 ∧
      ([1600] = ([] : List Time) → v.viewEndTime = none ∧ v.sessionDuration = none) ∧
      ∀ tl, ([1600] : List Time).getLast? = some tl →
        v.viewEndTime = some tl ∧ v.sessionDuration = some (castSeconds (tl - 0)) :=
  dedup_one_row_per_span db5 1 "1.2.3.4" none 0 [1600]
    (by decide) (by decide) (by decide)

/-- C4: a call that inserts a new event (none within the last hour) flags it
`isReturn` exactly when some event of the same `(listingId, ip)` has
`createdAt` strictly between 7 days ago and 24 hours ago. -/
theorem is_return_iff_prior_window (db : DB) (lid : Nat) (vid : Option Nat)
    (ip : String) (ua : Option String) (geo : Option GeoLocation) (now : Time)
    (hnorecent : findRecentView db lid ip now = none) :
    ∃ v, (recordView db lid vid ip ua geo now).1.listingViews = db.listingViews ++ [v] ∧
      (v.isReturn = true ↔ ∃ e ∈ db.listingViews, e.listingId = lid ∧ e.ipAddress = ip ∧
        now - 7 * msPerDay < e.createdAt ∧ e.createdAt < now - msPerDay) := by
  unfold recordView
  rw [hnorecent]
  refine ⟨_, rfl, ?_⟩
  show (findPreviousView db lid ip now).isSome = true ↔ _
  unfold findPreviousView
  simp only [List.find?_isSome, Bool.and_eq_true, beq_iff_eq, decide_eq_true_eq]
  constructor
  · rintro ⟨e, he, ⟨⟨h1, h2⟩, h3⟩, h4⟩
    exact ⟨e, he, h1, h2, h3, h4⟩
  · rintro ⟨e, he, h1, h2, h3, h4⟩
    exact ⟨e, he, ⟨⟨h1, h2⟩, h3⟩, h4⟩

/-- C4 witness: on `dbv` (one view at the epoch) a view two days later inserts
a row flagged as a return visit. -/
theorem is_return_iff_prior_window_witness :
    ∃ v, (recordView dbv 1 none "1.2.3.4" none none 172800000).1.listingViews =
        dbv.listingViews ++ [v] ∧
      (v.isReturn = true ↔ ∃ e ∈ dbv.listingViews, e.listingId = 1 ∧
        e.ipAddress = "1.2.3.4" ∧ 172800000 - 7 * msPerDay < e.createdAt ∧
        e.createdAt < 172800000 - msPerDay) :=
  is_return_iff_prior_window dbv 1 none "1.2.3.4" none none 172800000 (by decide)

/-! ### Claim theorems: the analytics aggregator -/

/-- For a nonnegative sum, the Postgres `avg(..)::int` cast agrees with
rounding the exact rational mean to the nearest integer. -/
theorem pgAvgInt_eq_round (s : Int) (n : Nat) (hs : 0 ≤ s) (hn : 0 < n) :
    pgAvgInt s n = round ((s : ℚ) / (n : ℚ)) := by
  have hn' : (n : ℚ) ≠ 0 := Nat.cast_ne_zero.mpr hn.ne'
  unfold pgAvgInt
  rw [if_pos hs, round_eq]
  have h2 : (s : ℚ) / (n : ℚ) + 1 / 2 = ((2 * s + n : ℤ) : ℚ) / ((2 * n : ℕ) : ℚ) := by
    push_cast
    field_simp
    ring
  rw [h2, Rat.floor_intCast_div_natCast]
  push_cast
  rfl

/-- A listing with no view events gets the all-zero / all-empty report (its
`avgDuration` is SQL null, not zero). -/
theorem analyticsReport_of_no_views (db : DB) (lid : Nat) (now : Time)
    (hempty : viewsOf db lid = []) :
    analyticsReport db lid now =
      { views := { total := 0, unique := 0, returningVisitors := 0, avgDuration := none },
        hourlyViews := [], dailyViews := [], geoDistribution := [],
        messageCount := (db.messages.filter (fun m => m.listingId == some lid)).length } := by
  unfold analyticsReport avgDurationOf hourlyViewsOf dailyViewsOf geoDistributionOf
  rw [hempty]
  simp [sortByLe, List.filterMap_eq_nil_iff]

/-- C7: the analytics request is refused with 403 exactly when the requester
is not the listing's owner (a missing listing included); for the owner it
always returns the report — with zero events the all-zero / all-empty
structure — and no input produces a 404. -/
theorem analytics_forbidden_iff_not_owner (db : DB) (lid uid : Nat) (now : Time) :
    (getAnalytics db lid uid now = .forbidden ↔
      ¬ ∃ l, findListing db lid = some l ∧ l.userId = some uid) ∧
    (∀ l, findListing db lid = some l → l.userId = some uid →
      getAnalytics db lid uid now = .ok (analyticsReport db lid now)) ∧
    (viewsOf db lid = [] →
      analyticsReport db lid now =
        { views := { total := 0, unique := 0, returningVisitors := 0, avgDuration := none },
          hourlyViews := [], dailyViews := [], geoDistribution := [],
          messageCount := (db.messages.filter (fun m => m.listingId == some lid)).length }) ∧
    (getAnalytics db lid uid now).statusCode ≠ 404 := by
  refine ⟨?_, ?_, analyticsReport_of_no_views db lid now, ?_⟩
  · unfold getAnalytics
    cases hf : findListing db lid with
    | none => simp
    | some l =>
        by_cases hu : l.userId = some uid
        · simp [hu]
        · simp [hu]
  · intro l hf hu
    unfold getAnalytics
    rw [hf]
    simp [hu]
  · unfold getAnalytics
    cases hf : findListing db lid with
    | none => simp [AnalyticsResult.statusCode]
    | some l =>
        by_cases hu : l.userId = some uid <;>
          simp [hu, AnalyticsResult.statusCode]

/-- C7 witness: the theorem applied to `db1` (listing 1 owned by user 10,
zero view events). -/
theorem analytics_forbidden_iff_not_owner_witness :
    getAnalytics db1 1 10 0 = .ok (analyticsReport db1 1 0) ∧
    analyticsReport db1 1 0 =
      { views := { total := 0, unique := 0, returningVisitors := 0, avgDuration := none },
        hourlyViews := [], dailyViews := [], geoDistribution := [],
        messageCount := (db1.messages.filter (fun m => m.listingId == some 1)).length } ∧
    (getAnalytics db1 1 10 0).statusCode ≠ 404 ∧
    getAnalytics db1 1 99 0 = .forbidden :=
  ⟨(analytics_forbidden_iff_not_owner db1 1 10 0).2.1 listing1 (by decide) (by decide),
   (analytics_forbidden_iff_not_owner db1 1 10 0).2.2.1 (by decide),
   (analytics_forbidden_iff_not_owner db1 1 10 0).2.2.2,
   (analytics_forbidden_iff_not_owner db1 1 99 0).1.mpr (by decide)⟩

/-- A view of listing 1 with a 10-second recorded session. -/
def viewD1 : ViewEvent :=
  { id := 1, listingId := 1, viewerId := none, ipAddress := "a", userAgent := none,
    geoLocation := none, sessionDuration := some 10, viewStartTime := 0,
    viewEndTime := some 10000, isReturn := false, createdAt := 0 }

/-- A view of listing 1 with a 5-second recorded session, from another IP. -/
def viewD2 : ViewEvent := { viewD1 with id := 2, ipAddress := "b", sessionDuration := some 5 }

/-- A view of listing 1 with no recorded session duration. -/
def viewN : ViewEvent := { viewD1 with id := 3, ipAddress := "c", sessionDuration := none }

def db6 : DB :=
  { listings := [listing1], premiumTiers := [], premiumPayments := [],
    listingViews := [viewD1, viewD2], messages := [], nextPaymentId := 1, nextViewId := 3 }

def db6w : DB :=
  { listings := [listing1], premiumTiers := [], premiumPayments := [],
    listingViews := [viewD1, viewN], messages := [], nextPaymentId := 1, nextViewId := 4 }

/-- C6 counterexample: for durations 10 and 5 the owner's report carries
`avgDuration = 8` — the `avg(..)::int` cast rounds the mean 7.5 to the nearest
integer — while truncating the mean to integer seconds gives 7. -/
theorem avg_duration_not_truncated :
    getAnalytics db6 1 10 0 = .ok (analyticsReport db6 1 0) ∧
    (analyticsReport db6 1 0).views.avgDuration = some 8 ∧
    (10 + 5 : Int).ediv 2 = 7 ∧ ¬ ((8 : Int) = 7) := by
  decide

/-- C6 (amended: the cast rounds the mean to the nearest integer rather than
truncating it): `avgDuration` is the rounded mean of exactly the non-null
`sessionDuration` values — null durations appear in neither numerator nor
denominator — and it is SQL null exactly when every duration is null. -/
theorem avg_duration_rounds_excluding_nulls (db : DB) (lid uid : Nat) (now : Time)
    (r : AnalyticsReport)
    (h : getAnalytics db lid uid now = .ok r)
    (hpos : ∀ e ∈ viewsOf db lid, 0 ≤ e.sessionDuration.getD 0) :
    (r.views.avgDuration = none ↔ ∀ e ∈ viewsOf db lid, e.sessionDuration = none) ∧
    ∀ v, r.views.avgDuration = some v →
      v = round (((((viewsOf db lid).filterMap
          (fun e => e.sessionDuration) : List Int).sum : Int) : ℚ) /
        (((viewsOf db lid).filterMap (fun e => e.sessionDuration)).length : ℚ)) := by
  have hr : r.views.avgDuration = avgDurationOf (viewsOf db lid) := by
    unfold getAnalytics at h
    cases hf : findListing db lid with
    | none => rw [hf] at h; cases h
    | some l =>
        rw [hf] at h
        have h' : (if (l.userId == some uid) = true then
            AnalyticsResult.ok (analyticsReport db lid now)
          else AnalyticsResult.forbidden) = AnalyticsResult.ok r := h
        by_cases hu : l.userId == some uid
        · rw [if_pos hu] at h'
          cases h'
          rfl
        · rw [if_neg hu] at h'
          cases h'
  rw [hr]
  unfold avgDurationOf
  constructor
  · by_cases hds : ((viewsOf db lid).filterMap (fun e => e.sessionDuration)).isEmpty
    · rw [if_pos hds]
      simp only [List.isEmpty_iff, List.filterMap_eq_nil_iff] at hds
      simpa using hds
    · rw [if_neg hds]
      simp only [List.isEmpty_iff, List.filterMap_eq_nil_iff] at hds
      constructor
      · intro hcon; cases hcon
      · intro hall
        exact absurd (fun e he => by rw [hall e he]) hds
  · intro v hv
    by_cases hds : ((viewsOf db lid).filterMap (fun e => e.sessionDuration)).isEmpty
    · rw [if_pos hds] at hv; cases hv
    · rw [if_neg hds] at hv
      have hlen : 0 < ((viewsOf db lid).filterMap (fun e => e.sessionDuration)).length := by
        cases hds' : (viewsOf db lid).filterMap (fun e => e.sessionDuration) with
        | nil => rw [hds'] at hds; simp at hds
        | cons a l => simp [hds']
      have hsum : 0 ≤ ((viewsOf db lid).filterMap (fun e => e.sessionDuration)).sum := by
        apply List.sum_nonneg
        intro x hx
        obtain ⟨e, he, hsd⟩ := List.mem_filterMap.mp hx
        have := hpos e he
        rw [hsd] at this
        simpa using this
      cases hv
      exact pgAvgInt_eq_round _ _ hsum hlen

/-- C6 witness: on `db6w` (one 10-second view, one view with a null duration)
the owner's report carries `avgDuration = 10`, not 5: the null row counts in
neither numerator nor denominator, and the rounded mean of `[10]` is 10. -/
theorem avg_duration_rounds_witness :
    (analyticsReport db6w 1 0).views.avgDuration = some 10 ∧
    ((analyticsReport db6w 1 0).views.avgDuration = none ↔
      ∀ e ∈ viewsOf db6w 1, e.sessionDuration = none) ∧
    ∀ v, (analyticsReport db6w 1 0).views.avgDuration = some v →
      v = round (((((viewsOf db6w 1).filterMap
          (fun e => e.sessionDuration) : List Int).sum : Int) : ℚ) /
        (((viewsOf db6w 1).filterMap (fun e => e.sessionDuration)).length : ℚ)) :=
  ⟨by decide,
   avg_duration_rounds_excluding_nulls db6w 1 10 0 (analyticsReport db6w 1 0)
     (by decide) (by decide)⟩

end Ruu
